import Mathlib

/-!
Shallow embedding of the module-federation counter demo.

Source files embedded here:
* `src/unnamed/part_000` — the remote `Counter` presentation component
  (a pure function from props to a JSX fragment).
* `src/app1/src/bootstrap.js` — the host `App`: `useState(0)`, a
  `React.Suspense` boundary with fallback `"Loading Counter..."`, and the
  two callbacks `() => setCount(count + 1)` / `() => setCount(count - 1)`
  passed to the remote `Counter`.

JSX elements are modelled by `VNode`; each element in the sources holds a
single (possibly interpolated) text content, so the embedding is flat.
Handlers are a type parameter `κ`: the host instantiates it with
`Int → Int` (what a `setCount`-closure does to the host state), and the
safety analysis instantiates it with `JSVal` to model invoking values
that may or may not be functions.
-/

namespace ModuleFederation

/-- View nodes produced by the JSX in the sources: a bare text node, a
`p` element with text content, an `h1` element with text content, and a
`button` with a label and an `onClick` handler of type `κ`. -/
inductive VNode (κ : Type) where
  | text : String → VNode κ
  | p : String → VNode κ
  | h1 : String → VNode κ
  | button : String → κ → VNode κ

/-- Props received by `Counter` (`src/unnamed/part_000`). Besides the
three fields the component reads, a JS props object may carry arbitrary
further properties; `extra` models those (the component never reads it). -/
structure CounterProps (α κ : Type) where
  count : α
  onIncrement : κ
  onDecrement : κ
  extra : List (String × String)

/-- Embedding of `Counter` from `src/unnamed/part_000`:
a fragment of a `p` showing `Count: {props.count}`, a button labeled
`Increment` wired to `props.onIncrement`, and a button labeled
`Decrement` wired to `props.onDecrement`. The count is interpolated into
the text via its string form, with no validation. -/
def Counter [ToString α] (props : CounterProps α κ) : List (VNode κ) :=
  [VNode.p ("Count: " ++ toString props.count),
   VNode.button "Increment" props.onIncrement,
   VNode.button "Decrement" props.onDecrement]

/-- Handlers of all buttons in a fragment, in document order. -/
def handlersOf : List (VNode κ) → List κ
  | [] => []
  | VNode.button _ h :: rest => h :: handlersOf rest
  | _ :: rest => handlersOf rest

/-- Handler of the first button carrying the given label, if any. -/
def findButton (label : String) : List (VNode κ) → Option κ
  | [] => none
  | VNode.button l h :: rest =>
      if l == label then some h else findButton label rest
  | _ :: rest => findButton label rest

/-- JS values that may be passed as an `onClick` prop: either an actual
function (acting on a state of type `σ`) or a non-function value such as
`undefined`. -/
inductive JSVal (σ : Type) where
  | fn : (σ → σ) → JSVal σ
  | undef : JSVal σ

/-- Invoking a JS value as a function: a function application succeeds,
invoking a non-function throws a `TypeError`. -/
def invokeJS : JSVal σ → σ → Except String σ
  | JSVal.fn f, s => Except.ok (f s)
  | JSVal.undef, _ => Except.error "TypeError: onClick is not a function"

/-- Activating the control with the given label in a rendered fragment:
the attached handler is invoked on the current state. Activating a
control that is not present is a no-op. -/
def activateControl (frag : List (VNode (JSVal σ))) (label : String)
    (s : σ) : Except String σ :=
  match findButton label frag with
  | some h => invokeJS h s
  | none => Except.ok s

/-- Initial host state, from `useState(0)` in `src/app1/src/bootstrap.js`. -/
def initialCount : Int := 0

/-- Embedding of the closure `() => setCount(count + 1)` created by a
render of `App` at state `count`: invoked later, it replaces the host
state with the captured `count` plus one, ignoring the state current at
invocation time. -/
def mkOnIncrement (count : Int) : Int → Int := fun _ => count + 1

/-- Embedding of the closure `() => setCount(count - 1)` created by a
render of `App` at state `count`: invoked later, it replaces the host
state with the captured `count` minus one, ignoring the state current at
invocation time. -/
def mkOnDecrement (count : Int) : Int → Int := fun _ => count - 1

/-- Embedding of the host `App` body (`src/app1/src/bootstrap.js`): an
`h1` header, then the `React.Suspense` boundary. While the remote module
is unresolved the fallback text `Loading Counter...` renders in place of
the child; once resolved, the remote `Counter` renders with the current
`count` and the two freshly created callbacks. -/
def App (resolved : Bool) (count : Int) : List (VNode (Int → Int)) :=
  VNode.h1 "Hello from React component" ::
    (if resolved then
      Counter (CounterProps.mk count (mkOnIncrement count)
        (mkOnDecrement count) [])
    else
      [VNode.text "Loading Counter..."])

/-- User events on the rendered page. -/
inductive UserEvent where
  | clickIncrement : UserEvent
  | clickDecrement : UserEvent

/-- One event tick: the click invokes the callback that the most recent
render (at state `count`) installed on the corresponding button, and the
host state becomes the callback's result. Rendering after the tick uses
the new state. -/
def dispatch (count : Int) : UserEvent → Int
  | UserEvent.clickIncrement => mkOnIncrement count count
  | UserEvent.clickDecrement => mkOnDecrement count count

/-- Host state after a sequence of user events starting from the initial
mount (count `0`), one render between consecutive events. -/
def runEvents (evs : List UserEvent) : Int :=
  evs.foldl dispatch initialCount

/-- Whether an event is an increment activation. -/
def isInc : UserEvent → Bool
  | UserEvent.clickIncrement => true
  | UserEvent.clickDecrement => false

/-- Number of increment activations in an event sequence. -/
def incCount (evs : List UserEvent) : Nat := (evs.filter isInc).length

/-- Number of decrement activations in an event sequence. -/
def decCount (evs : List UserEvent) : Nat :=
  (evs.filter (fun e => !isInc e)).length

/-- Events that also include render steps. Rendering re-runs the `App`
body, which reads `count` and builds the view but calls no state setter
(the `setCount` calls in `bootstrap.js` occur only inside the two
click-handler closures), so a render step leaves the host state
unchanged. -/
inductive HostEvent where
  | render : HostEvent
  | click : UserEvent → HostEvent

/-- Host state transition for render and click events. -/
def hostStep (count : Int) : HostEvent → Int
  | HostEvent.render => count
  | HostEvent.click e => dispatch count e

/-- Whether a node is the Suspense fallback text `Loading Counter...`. -/
def isFallbackNode : VNode κ → Bool
  | VNode.text s => s == "Loading Counter..."
  | _ => false

/-- Whether a fragment shows the Suspense fallback. -/
def displaysFallback (frag : List (VNode κ)) : Bool :=
  frag.any isFallbackNode

/-- Whether a node is the Counter text for count `c`. -/
def isCountNode (c : Int) : VNode κ → Bool
  | VNode.p s => s == "Count: " ++ toString c
  | _ => false

/-- Whether a fragment shows the Counter output for count `c`. -/
def displaysCounter (c : Int) (frag : List (VNode κ)) : Bool :=
  frag.any (isCountNode c)

/-- Whether a node is a button. -/
def isButtonNode : VNode κ → Bool
  | VNode.button _ _ => true
  | _ => false

/-- Folding the event dispatcher from any start state adds the number of
increment clicks and subtracts the number of decrement clicks. -/
theorem foldl_dispatch_eq (evs : List UserEvent) (c : Int) :
    evs.foldl dispatch c = c + incCount evs - decCount evs := by
  induction evs generalizing c with
  | nil => simp [incCount, decCount]
  | cons e rest ih =>
    cases e with
    | clickIncrement =>
      have h1 : incCount (UserEvent.clickIncrement :: rest)
          = incCount rest + 1 := by
        simp [incCount, isInc, List.filter_cons]
      have h2 : decCount (UserEvent.clickIncrement :: rest)
          = decCount rest := by
        simp [decCount, isInc, List.filter_cons]
      rw [List.foldl_cons, ih, h1, h2]
      simp only [dispatch, mkOnIncrement]
      push_cast
      ring
    | clickDecrement =>
      have h1 : incCount (UserEvent.clickDecrement :: rest)
          = incCount rest := by
        simp [incCount, isInc, List.filter_cons]
      have h2 : decCount (UserEvent.clickDecrement :: rest)
          = decCount rest + 1 := by
        simp [decCount, isInc, List.filter_cons]
      rw [List.foldl_cons, ih, h1, h2]
      simp only [dispatch, mkOnDecrement]
      push_cast
      ring

/-- Rendering the resolved page at count `z` shows the text for `z`. -/
theorem app_displays_count (z : Int) :
    displaysCounter z (App true z) = true := by
  simp [App, Counter, displaysCounter, isCountNode]

/-- C1: starting from the freshly mounted host (count `0`), after any
sequence of `N` increment activations and `M` decrement activations in
any order, the host state equals `N - M` and the rendered page displays
the text for `N - M`. -/
theorem count_after_events_eq_inc_sub_dec (evs : List UserEvent) :
    runEvents evs = (incCount evs : Int) - decCount evs ∧
    displaysCounter ((incCount evs : Int) - decCount evs)
      (App true (runEvents evs)) = true := by
  have h : runEvents evs = (incCount evs : Int) - decCount evs := by
    rw [runEvents, foldl_dispatch_eq, initialCount]
    ring
  exact ⟨h, h ▸ app_displays_count (runEvents evs)⟩

/-- C2: for every count value and every pair of callbacks, the rendered
Counter fragment contains the text node `Count: ` followed by the count,
a button labeled `Increment` wired to `onIncrement`, and a button
labeled `Decrement` wired to `onDecrement`; activating either control
finds exactly the corresponding supplied callback. -/
theorem counter_renders_contract [ToString α] (c : α) (incCb decCb : κ)
    (extra : List (String × String)) :
    VNode.p ("Count: " ++ toString c) ∈
      Counter (CounterProps.mk c incCb decCb extra) ∧
    VNode.button "Increment" incCb ∈
      Counter (CounterProps.mk c incCb decCb extra) ∧
    VNode.button "Decrement" decCb ∈
      Counter (CounterProps.mk c incCb decCb extra) ∧
    findButton "Increment" (Counter (CounterProps.mk c incCb decCb extra))
      = some incCb ∧
    findButton "Decrement" (Counter (CounterProps.mk c incCb decCb extra))
      = some decCb := by
  refine ⟨?_, ?_, ?_, ?_, ?_⟩ <;> simp [Counter, findButton]

/-- C3: the increment (resp. decrement) callback created by a render at
state `c` sets the state to `c + 1` (resp. `c - 1`) regardless of the
state `s` current when it is invoked; in particular two activations of
the same rendered increment callback before a re-render leave the state
at `c + 1`, a net change of `+1`, not `+2` (and dually for decrement). -/
theorem callbacks_capture_render_count (c s : Int) :
    mkOnIncrement c s = c + 1 ∧ mkOnDecrement c s = c - 1 ∧
    mkOnIncrement c (mkOnIncrement c c) = c + 1 ∧
    mkOnDecrement c (mkOnDecrement c c) = c - 1 :=
  ⟨rfl, rfl, rfl, rfl⟩

/-- C4: on mount the host initializes `count` to `0`, and the first
resolved render shows the text node `Count: 0`. -/
theorem initial_count_zero_and_displayed :
    initialCount = 0 ∧
    VNode.p "Count: 0" ∈ App true initialCount ∧
    displaysCounter 0 (App true initialCount) = true := by
  have hz : "Count: " ++ toString (0 : Int) = "Count: 0" := rfl
  refine ⟨rfl, ?_, ?_⟩ <;>
    simp [App, Counter, initialCount, displaysCounter, isCountNode, hz]

/-- Replicated increment clicks add their number to the start state. -/
theorem foldl_replicate_inc (n : Nat) (c : Int) :
    (List.replicate n UserEvent.clickIncrement).foldl dispatch c
      = c + n := by
  induction n generalizing c with
  | zero => simp
  | succ k ih =>
    rw [List.replicate_succ, List.foldl_cons, ih]
    simp [dispatch, mkOnIncrement]
    ring

/-- Replicated decrement clicks subtract their number from the start
state. -/
theorem foldl_replicate_dec (n : Nat) (c : Int) :
    (List.replicate n UserEvent.clickDecrement).foldl dispatch c
      = c - n := by
  induction n generalizing c with
  | zero => simp
  | succ k ih =>
    rw [List.replicate_succ, List.foldl_cons, ih]
    simp [dispatch, mkOnDecrement]
    ring

/-- C5: the host state is an integer changed only by the two event
transitions, each step being exactly `+1` (increment) or `-1`
(decrement); no bound is enforced: every integer, negative or arbitrarily
large, is reached by some event sequence. -/
theorem count_steps_unit_and_unbounded :
    (∀ (c : Int) (e : UserEvent),
        dispatch c e = c + 1 ∨ dispatch c e = c - 1) ∧
    (∀ z : Int, ∃ evs : List UserEvent, runEvents evs = z) := by
  constructor
  · intro c e
    cases e
    · exact Or.inl rfl
    · exact Or.inr rfl
  · intro z
    rcases le_or_lt 0 z with hz | hz
    · refine ⟨List.replicate z.toNat UserEvent.clickIncrement, ?_⟩
      rw [runEvents, foldl_replicate_inc, initialCount, Int.toNat_of_nonneg hz]
      ring
    · refine ⟨List.replicate (-z).toNat UserEvent.clickDecrement, ?_⟩
      rw [runEvents, foldl_replicate_dec, initialCount,
        Int.toNat_of_nonneg (by omega : (0:Int) ≤ -z)]
      ring

/-- C6: while the remote is unresolved the host output shows the
fallback `Loading Counter...` and none of the Counter output (no count
text, no buttons); once resolved the fallback is gone and the count text
is shown; for no resolution state are the fallback and the count text
shown together. -/
theorem fallback_and_counter_exclusive (c : Int) :
    displaysFallback (App false c) = true ∧
    displaysCounter c (App false c) = false ∧
    (App false c).any isButtonNode = false ∧
    displaysFallback (App true c) = false ∧
    displaysCounter c (App true c) = true ∧
    (∀ r : Bool, (displaysFallback (App r c) &&
      displaysCounter c (App r c)) = false) := by
  refine ⟨?_, ?_, ?_, ?_, ?_, ?_⟩
  · simp [App, displaysFallback, isFallbackNode]
  · simp [App, displaysCounter, isCountNode]
  · simp [App, isButtonNode]
  · simp [App, Counter, displaysFallback, isFallbackNode]
  · simp [App, Counter, displaysCounter, isCountNode]
  · intro r
    cases r
    · simp [App, displaysCounter, isCountNode]
    · simp [App, Counter, displaysFallback, isFallbackNode]

/-- C7: when both supplied callbacks are functions, activating the
Increment (resp. Decrement) control of the rendered Counter invokes the
corresponding function and completes normally, never throwing. -/
theorem activation_never_throws [ToString α] (c : α) (f g : σ → σ)
    (extra : List (String × String)) (s : σ) :
    activateControl
      (Counter (CounterProps.mk c (JSVal.fn f) (JSVal.fn g) extra))
      "Increment" s = Except.ok (f s) ∧
    activateControl
      (Counter (CounterProps.mk c (JSVal.fn f) (JSVal.fn g) extra))
      "Decrement" s = Except.ok (g s) := by
  constructor <;> simp [activateControl, findButton, Counter, invokeJS]

/-- C8: the Counter is pure and stateless: the only handlers reachable
from its rendered output are exactly the two supplied callbacks (so
nothing but activating its controls can invoke them), and a render step
of the host leaves the host state unchanged — rendering has no effect
beyond producing the view fragment. -/
theorem counter_pure_stateless [ToString α] (props : CounterProps α κ)
    (c : Int) :
    handlersOf (Counter props) = [props.onIncrement, props.onDecrement] ∧
    hostStep c HostEvent.render = c :=
  ⟨rfl, rfl⟩

/-- C9: the Counter validates nothing: for every count value of every
type with a string form, the first node of its output is exactly the
text `Count: ` followed by that value's string form, unmodified. -/
theorem count_displayed_verbatim [ToString α] (c : α) (incCb decCb : κ)
    (extra : List (String × String)) :
    (Counter (CounterProps.mk c incCb decCb extra)).head? =
      some (VNode.p ("Count: " ++ toString c)) :=
  rfl

/-- C10: the Counter output is a deterministic function of the three
props it reads: any two props objects agreeing on `count`,
`onIncrement` and `onDecrement` render identically, whatever other
properties they carry. -/
theorem counter_depends_only_on_three_props [ToString α]
    (p1 p2 : CounterProps α κ) (hc : p1.count = p2.count)
    (hi : p1.onIncrement = p2.onIncrement)
    (hd : p1.onDecrement = p2.onDecrement) :
    Counter p1 = Counter p2 := by
  simp [Counter, hc, hi, hd]

/-- Witness for C10 at concrete props differing only in an extra
property. -/
theorem counter_depends_only_on_three_props_witness :
    Counter (CounterProps.mk (5 : Int) (mkOnIncrement 5)
      (mkOnDecrement 5) ([] : List (String × String))) =
    Counter (CounterProps.mk (5 : Int) (mkOnIncrement 5)
      (mkOnDecrement 5) [("theme", "dark")]) :=
  counter_depends_only_on_three_props _ _ rfl rfl rfl

end ModuleFederation
